import Mathlib

/-! Verification development for the Gen-Do skeleton-service repository.

The definitions below are a shallow embedding of the Go sources:

- src/internal/pkg/env/env.go (environment getters)
- src/unnamed/part_007 (config loader variant with getEnvBool)
- src/cmd/main.go, second variant (main, setupRoutes, gracefulShutdown)
- the shutdown package (GracefulShutdown), textually identical to
  gracefulShutdown in main.go
- src/internal/pkg/server/server.go (Server.StartAsync, Server.Shutdown,
  BasicRoutes.RegisterRoutes)

Pure functions become Lean functions; the process environment becomes an
explicit argument; goroutine interaction is modelled by a deterministic
scenario record described at runMain. -/

namespace SkeletonService

/-! ## Environment access (src/internal/pkg/env/env.go) -/

/-- Process environment as seen through Go os.LookupEnv: some value when the
variable is set (possibly to the empty string), none when unset. -/
def Env : Type := String → Option String

/-- Go os.Getenv: the value when set, the empty string when unset.  It
collapses a variable set to the empty string with an unset variable. -/
def getenv (env : Env) (key : String) : String :=
  (env key).getD ""

/-- Environment with one variable (re)bound, as after os.Setenv. -/
def setEnv (env : Env) (key value : String) : Env :=
  fun k => if k = key then some value else env k

/-- Environment with one variable removed, as after os.Unsetenv. -/
def unsetEnv (env : Env) (key : String) : Env :=
  fun k => if k = key then none else env k

/-- Value of a single decimal digit character, none for a non-digit. -/
def charDigit (c : Char) : Option Nat :=
  if c.isDigit then some (c.toNat - 48) else none

/-- Value of a nonempty all-digit character list in base 10, none otherwise. -/
def digitsVal (cs : List Char) : Option Nat :=
  if cs = [] then none
  else
    cs.foldl
      (fun acc c =>
        match acc, charDigit c with
        | some a, some d => some (a * 10 + d)
        | _, _ => none)
      (some 0)

/-- Go strconv.ParseInt(s, 10, 64): an optional sign followed by at least one
decimal digit, rejected when the value does not fit a signed 64-bit integer.
strconv.Atoi is ParseInt(s, 10, 0), which on the 64-bit platforms this service
targets is the same function. -/
def goParseInt64 (s : String) : Option Int :=
  let cs := s.data
  let signed : Bool × List Char :=
    match cs with
    | c :: rest =>
        if c = '-' then (true, rest)
        else if c = '+' then (false, rest)
        else (false, cs)
    | [] => (false, [])
  match digitsVal signed.2 with
  | none => none
  | some n =>
      let v : Int := if signed.1 then -(n : Int) else (n : Int)
      if -(2 ^ 63) ≤ v ∧ v ≤ 2 ^ 63 - 1 then some v else none

/-- Go strconv.ParseBool: accepts exactly 1, t, T, TRUE, true, True for true
and 0, f, F, FALSE, false, False for false; every other string is an error. -/
def goParseBool (s : String) : Option Bool :=
  if s = "1" ∨ s = "t" ∨ s = "T" ∨ s = "TRUE" ∨ s = "true" ∨ s = "True" then
    some true
  else if s = "0" ∨ s = "f" ∨ s = "F" ∨ s = "FALSE" ∨ s = "false" ∨ s = "False" then
    some false
  else none

/-- env.GetString (env.go lines 9 to 14): the value of the variable when it is
set and nonempty, the default otherwise. -/
def GetString (env : Env) (key defaultValue : String) : String :=
  let value := getenv env key
  if value ≠ "" then value else defaultValue

/-- env.GetBool (env.go lines 17 to 27): a case-sensitive switch over the
nonempty value; any unrecognised or empty value yields the default. -/
def GetBool (env : Env) (key : String) (defaultValue : Bool) : Bool :=
  let value := getenv env key
  if value ≠ "" then
    if value = "true" ∨ value = "1" ∨ value = "yes" ∨ value = "on" then true
    else if value = "false" ∨ value = "0" ∨ value = "no" ∨ value = "off" then false
    else defaultValue
  else defaultValue

/-- env.GetInt (env.go lines 30 to 37): strconv.Atoi on the nonempty value,
falling back to the default on empty, unset or unparsable input. -/
def GetInt (env : Env) (key : String) (defaultValue : Int) : Int :=
  let value := getenv env key
  if value ≠ "" then
    match goParseInt64 value with
    | some parsed => parsed
    | none => defaultValue
  else defaultValue

/-- env.GetInt64 (env.go lines 40 to 47): strconv.ParseInt(value, 10, 64) on
the nonempty value, falling back to the default otherwise. -/
def GetInt64 (env : Env) (key : String) (defaultValue : Int) : Int :=
  let value := getenv env key
  if value ≠ "" then
    match goParseInt64 value with
    | some parsed => parsed
    | none => defaultValue
  else defaultValue

/-- env.GetFloat64 (env.go lines 50 to 57): strconv.ParseFloat(value, 64) on
the nonempty value, falling back to the default otherwise.  Float semantics
are irrelevant to the proofs here, so the stdlib parse is a parameter. -/
def GetFloat64 (parseFloat : String → Option Float) (env : Env) (key : String)
    (defaultValue : Float) : Float :=
  let value := getenv env key
  if value ≠ "" then
    match parseFloat value with
    | some parsed => parsed
    | none => defaultValue
  else defaultValue

/-- env.IsSet (env.go lines 68 to 71): the second result of os.LookupEnv, true
even for a variable set to the empty string. -/
def IsSet (env : Env) (key : String) : Bool :=
  (env key).isSome

/-- getEnvBool from the config loader variant (src/unnamed/part_007 lines 69
to 76): strconv.ParseBool on the nonempty value, default otherwise. -/
def getEnvBool (env : Env) (key : String) (defaultValue : Bool) : Bool :=
  let value := getenv env key
  if value ≠ "" then
    match goParseBool value with
    | some parsed => parsed
    | none => defaultValue
  else defaultValue

/-! ## Lifecycle coordinator (src/cmd/main.go second variant, lines 131 to 182
and 381 to 403; the shutdown package GracefulShutdown is the same code with
srv.Shutdown in place of server.Shutdown) -/

/-- Go error values that the lifecycle code distinguishes. -/
inductive GoError
  /-- http.ErrServerClosed, returned by ListenAndServe after Shutdown. -/
  | errServerClosed
  /-- context.DeadlineExceeded, returned by Shutdown when the deadline passes
  with requests still in flight. -/
  | deadlineExceeded
  /-- Bind failure such as the port being already in use. -/
  | addrInUse
  /-- Any other error, carrying its message. -/
  | other (msg : String)
deriving DecidableEq

/-- Logrus levels used by the coordinator. -/
inductive LogLevel
  | info
  | error
  | fatal
deriving DecidableEq

/-- One emitted log line. -/
structure LogEvent where
  level : LogLevel
  msg : String
deriving DecidableEq

/-- Termination signals registered by signal.Notify at main.go line 386. -/
inductive Sig
  | sigint
  | sigterm
deriving DecidableEq

/-- Behaviour of server.ListenAndServe as observed by the serve goroutine
launched at main.go lines 173 to 178 (server.go StartAsync, lines 167 to 173,
is the same goroutine body). -/
inductive ServeBehavior
  /-- Binding fails synchronously with error e; the server never serves. -/
  | bindFail (e : GoError)
  /-- The server binds and serves; ListenAndServe returns
  http.ErrServerClosed after Shutdown closes it. -/
  | serveThenClosed
  /-- The server binds and serves; ListenAndServe later returns the abnormal
  error e. -/
  | serveThenFail (e : GoError)
deriving DecidableEq

/-- Error value that ListenAndServe returns under each behaviour
(ListenAndServe always returns a non-nil error). -/
def serveReturn : ServeBehavior → GoError
  | .bindFail e => e
  | .serveThenClosed => .errServerClosed
  | .serveThenFail e => e

/-- Whether the server ever reached the serving (Running) state. -/
def enteredRunning : ServeBehavior → Bool
  | .bindFail _ => false
  | .serveThenClosed => true
  | .serveThenFail _ => true

/-- Fatal classification applied by the serve goroutine to the result of
ListenAndServe: err != nil && err != http.ErrServerClosed (main.go line 175,
server.go line 169).  The Go nil error is modelled as none. -/
def serveErrFatal (e : Option GoError) : Bool :=
  match e with
  | none => false
  | some e => decide (e ≠ GoError.errServerClosed)

/-- Observable trace of one call of gracefulShutdown. -/
structure ShutdownTrace where
  /-- Log lines emitted, in order. -/
  logs : List LogEvent
  /-- Number of times server.Shutdown was invoked. -/
  shutdownCalls : Nat
  /-- Timeout, in seconds, of the context passed to server.Shutdown, when the
  call happened. -/
  deadlineSeconds : Option Nat
  /-- Whether the function returned (false means it is still blocked on the
  signal channel). -/
  returned : Bool
deriving DecidableEq

/-- gracefulShutdown (main.go lines 381 to 403; identically GracefulShutdown
in the shutdown package).  It makes a signal channel of capacity one,
registers it for SIGINT and SIGTERM, blocks on one receive, logs, calls
server.Shutdown under a context with a 30-second timeout, and logs the
outcome.  Arguments: the termination signals delivered while it runs, in
order, and the error returned by server.Shutdown under that context (none for
a nil error).  Signals after the first stay unread in the channel, so they
have no effect.  The function reads no environment variable; the env argument
records that the process environment is available to it and unused. -/
def gracefulShutdown (env : Env) (signals : List Sig)
    (shutdownErr : Option GoError) : ShutdownTrace :=
  match signals with
  | [] =>
      { logs := [], shutdownCalls := 0, deadlineSeconds := none,
        returned := false }
  | _ :: _ =>
      match shutdownErr with
      | some _ =>
          { logs := [⟨.info, "Shutting down server..."⟩,
                     ⟨.error, "Server forced to shutdown"⟩],
            shutdownCalls := 1, deadlineSeconds := some 30, returned := true }
      | none =>
          { logs := [⟨.info, "Shutting down server..."⟩,
                     ⟨.info, "Server exited gracefully"⟩],
            shutdownCalls := 1, deadlineSeconds := some 30, returned := true }

/-- One run scenario of the process: the environment, how ListenAndServe
behaves, the termination signals delivered, and the outcome of
server.Shutdown if called. -/
structure RunScenario where
  env : Env
  behavior : ServeBehavior
  signals : List Sig
  shutdownErr : Option GoError

/-- Observable outcome of one process run. -/
structure RunResult where
  /-- Exit code of the process, none when it blocks forever. -/
  exit : Option Nat
  /-- Log lines emitted. -/
  logs : List LogEvent
  /-- Number of times server.Shutdown was invoked. -/
  shutdownCalls : Nat
  /-- Whether the server ever reached the serving state. -/
  enteredRunning : Bool
deriving DecidableEq

/-- Process-level composition of main (main.go lines 131 to 182) with the
serve goroutine and gracefulShutdown.  The goroutine logs at line 174, runs
ListenAndServe, and on a fatal result calls logger.Fatal, which logs at fatal
level and calls os.Exit(1).  The main goroutine calls gracefulShutdown and,
when it returns, falls off the end of main, so the process exits with code 0.
Scheduling is resolved deterministically: a fatal serve error (synchronous
bind failure, or runtime failure) is observed and exits the process before
the main goroutine completes its signal wait; on the graceful path
ListenAndServe returns http.ErrServerClosed, which the line 175 guard
excludes from the fatal branch. -/
def runMain (s : RunScenario) : RunResult :=
  let startLog : LogEvent := ⟨.info, "Starting HTTP server"⟩
  if serveErrFatal (some (serveReturn s.behavior)) then
    { exit := some 1,
      logs := [startLog, ⟨.fatal, "Failed to start server"⟩],
      shutdownCalls := 0,
      enteredRunning := enteredRunning s.behavior }
  else
    let t := gracefulShutdown s.env s.signals s.shutdownErr
    { exit := if t.returned then some 0 else none,
      logs := startLog :: t.logs,
      shutdownCalls := t.shutdownCalls,
      enteredRunning := enteredRunning s.behavior }

/-- Steps of the main goroutine of main.go (second variant) that matter for
signal-versus-start ordering, one constructor per source location. -/
inductive MainStep
  /-- Lines 133 to 135: godotenv.Load. -/
  | loadDotenv
  /-- Line 138: setupLogger. -/
  | setupLog
  /-- Lines 141 to 149: setupTracing. -/
  | setupTrace
  /-- Lines 152 to 153: read PORT and SERVICE_NAME. -/
  | readConfig
  /-- Line 161: setupRouter (which calls setupRoutes). -/
  | buildRouter
  /-- Lines 164 to 170: construct the http.Server. -/
  | buildServer
  /-- Line 173: launch the serve goroutine (go func with ListenAndServe). -/
  | spawnServeGoroutine
  /-- Line 386, inside gracefulShutdown: signal.Notify for SIGINT/SIGTERM. -/
  | registerSignalHandler
  /-- Line 389: block on the signal channel. -/
  | awaitSignal
  /-- Line 397: server.Shutdown under the 30-second context. -/
  | callShutdown
deriving DecidableEq

/-- Program order of the main goroutine of main.go, lines 131 to 182, with
gracefulShutdown (called at line 181) inlined. -/
def mainProgramOrder : List MainStep :=
  [.loadDotenv, .setupLog, .setupTrace, .readConfig, .buildRouter,
   .buildServer, .spawnServeGoroutine, .registerSignalHandler, .awaitSignal,
   .callShutdown]

/-! ## Shutdown idempotence (server.go lines 176 to 179 over the net/http
contract) -/

/-- State of the underlying net/http Server relevant to Shutdown: whether
Shutdown has already been initiated, and whether the in-flight connections of
this run drain before the context deadline. -/
structure HttpServerState where
  inShutdown : Bool
  drainsInTime : Bool
deriving DecidableEq

/-- Documented contract of net/http (Server).Shutdown: set the inShutdown
flag, close the open listeners (a repeat call finds none left to close), then
wait for idle connections; return nil once idle, or the context error when
the deadline passes first.  The call never panics and may be repeated. -/
def httpShutdown (st : HttpServerState) : HttpServerState × Option GoError :=
  ({ st with inShutdown := true },
   if st.drainsInTime then none else some GoError.deadlineExceeded)

/-- Server.Shutdown wrapper (server.go lines 176 to 179): log one info line,
then delegate to the underlying http.Server.  Result: next server state, the
log lines emitted, and the returned error. -/
def srvShutdown (st : HttpServerState) :
    HttpServerState × List LogEvent × Option GoError :=
  let r := httpShutdown st
  (r.1, [⟨.info, "Shutting down HTTP server..."⟩], r.2)

/-! ## Stub handlers and route registration (main.go setupRoutes lines 266 to
331; server.go BasicRoutes lines 221 to 254) -/

/-- The parts of an HTTP request the stub handlers could look at (they look
at none of them). -/
structure HttpRequest where
  method : String
  path : String
deriving DecidableEq

/-- An HTTP response: status code, Content-Type header if set, and body. -/
structure HttpResponse where
  status : Nat
  contentType : Option String
  body : String
deriving DecidableEq

/-- Body written by the health handler (main.go line 271, server.go lines 234
to 235): a JSON object with the status field ok and the current timestamp. -/
def healthBody (now : String) : String :=
  "\x7b\"status\":\"ok\",\"timestamp\":\"" ++ (now ++ "\"\x7d")

/-- Health handler (main.go lines 268 to 272; the same literal body is built
at server.go lines 231 to 236).  The now argument is the RFC3339 rendering of
time.Now. -/
def healthHandler (_r : HttpRequest) (now : String) : HttpResponse :=
  { status := 200, contentType := some "application/json",
    body := healthBody now }

/-- Ping handler (main.go lines 325 to 329; server.go lines 240 to 244): a
fixed JSON body, ignoring the request. -/
def pingHandler (_r : HttpRequest) : HttpResponse :=
  { status := 200, contentType := some "application/json",
    body := "\x7b\"message\":\"pong\"\x7d" }

/-- Tag of the handler bound to a route. -/
inductive RouteHandler
  | health
  | metricsProm
  | ping
deriving DecidableEq

/-- One registered route: HTTP method restriction (none for router.Handle,
which accepts any method), effective pattern, and handler. -/
structure Route where
  method : Option String
  pattern : String
  handler : RouteHandler
deriving DecidableEq

/-- Routes registered by setupRoutes (main.go lines 266 to 331): GET /health,
the Prometheus handler at /metrics, and GET /ping inside the /api/v1 group,
giving the effective pattern /api/v1/ping. -/
def setupRoutes : List Route :=
  [⟨some "GET", "/health", .health⟩,
   ⟨none, "/metrics", .metricsProm⟩,
   ⟨some "GET", "/api/v1/ping", .ping⟩]

/-- Configured paths of BasicRoutes (server.go lines 221 to 226). -/
structure BasicRoutes where
  healthPath : String
  metricsPath : String
  pingPath : String
deriving DecidableEq

/-- DefaultBasicRoutes (server.go lines 248 to 254). -/
def defaultBasicRoutes : BasicRoutes :=
  { healthPath := "/health", metricsPath := "", pingPath := "/ping" }

/-- BasicRoutes.RegisterRoutes (server.go lines 229 to 246): register a GET
health route and a GET ping route at the configured paths when nonempty. -/
def basicRoutesRegister (br : BasicRoutes) : List Route :=
  (if br.healthPath ≠ "" then [⟨some "GET", br.healthPath, RouteHandler.health⟩]
   else [])
    ++
  (if br.pingPath ≠ "" then [⟨some "GET", br.pingPath, RouteHandler.ping⟩]
   else [])

/-- Strings the switch in env.GetBool (env.go line 20) maps to true. -/
def boolTrueStrings : List String := ["true", "1", "yes", "on"]

/-- Strings the switch in env.GetBool (env.go line 22) maps to false. -/
def boolFalseStrings : List String := ["false", "0", "no", "off"]

/-! ## Theorems -/

/-- Strings append associatively (helper for reasoning about the literal
bodies built by the handlers). -/
theorem stringAppendAssoc (a b c : String) : a ++ b ++ c = a ++ (b ++ c) := by
  rcases a with ⟨as⟩
  rcases b with ⟨bs⟩
  rcases c with ⟨cs⟩
  show String.mk (as ++ bs ++ cs) = String.mk (as ++ (bs ++ cs))
  rw [List.append_assoc]

/-- Splitting a string literal off the front of a concatenation (helper). -/
theorem stringAppendSplit (a b c x : String) (h : a ++ b = c) :
    a ++ (b ++ x) = c ++ x := by
  rw [← stringAppendAssoc, h]

/-- Claim C1, counterexample: in the run where the server is serving, one
SIGTERM arrives, and Shutdown exceeds its 30-second deadline (returning
context.DeadlineExceeded), the claim says the process exits with code 1; the
code logs the error and returns from gracefulShutdown, so main returns and
the process exits with code 0. -/
theorem C1_counterexample :
    (runMain { env := fun _ => none, behavior := ServeBehavior.serveThenClosed,
               signals := [Sig.sigterm],
               shutdownErr := some GoError.deadlineExceeded }).exit = some 0
    ∧ (runMain { env := fun _ => none, behavior := ServeBehavior.serveThenClosed,
                 signals := [Sig.sigterm],
                 shutdownErr := some GoError.deadlineExceeded }).exit ≠ some 1 := by
  exact ⟨rfl, by decide⟩

/-- Claim C1 as amended: for every run that stops gracefully the process
exits with code 0; for every run where the deadline is exceeded, Shutdown
returns the timeout error, the coordinator logs Server forced to shutdown at
error level, and the process still exits with code 0; exit code 1 occurs only
through logger.Fatal on the fatal serve-error path. -/
theorem C1_amended (env : Env) (s0 : Sig) (rest : List Sig) (msg : String) :
    (runMain { env := env, behavior := ServeBehavior.serveThenClosed,
               signals := s0 :: rest, shutdownErr := none }).exit = some 0
    ∧ (runMain { env := env, behavior := ServeBehavior.serveThenClosed,
                 signals := s0 :: rest,
                 shutdownErr := some GoError.deadlineExceeded }).exit = some 0
    ∧ LogEvent.mk LogLevel.error "Server forced to shutdown" ∈
        (runMain { env := env, behavior := ServeBehavior.serveThenClosed,
                   signals := s0 :: rest,
                   shutdownErr := some GoError.deadlineExceeded }).logs
    ∧ (runMain { env := env, behavior := ServeBehavior.serveThenFail (GoError.other msg),
                 signals := s0 :: rest, shutdownErr := none }).exit = some 1 := by
  refine ⟨rfl, rfl, ?_, ?_⟩
  · simp [runMain, gracefulShutdown, serveErrFatal, serveReturn]
  · simp [runMain, serveErrFatal, serveReturn]

/-- Claim C2, counterexample: the claimed ordering — signal registration
happens before the server starts serving — is false in the program order of
main: the serve goroutine is spawned at line 173 and signal.Notify only runs
afterwards, at line 386 inside gracefulShutdown. -/
theorem C2_counterexample :
    ¬ mainProgramOrder.indexOf MainStep.registerSignalHandler <
        mainProgramOrder.indexOf MainStep.spawnServeGoroutine := by
  decide

/-- Claim C2 as amended: in the program order of main the serve goroutine is
launched before the termination-signal handler is registered (so a signal
delivered in that window gets default disposition and is missed); the handler
is registered before the coordinator blocks waiting for a signal. -/
theorem C2_amended :
    mainProgramOrder.indexOf MainStep.spawnServeGoroutine <
      mainProgramOrder.indexOf MainStep.registerSignalHandler
    ∧ mainProgramOrder.indexOf MainStep.registerSignalHandler <
        mainProgramOrder.indexOf MainStep.awaitSignal := by
  decide

/-- Claim C3: a serve error is classified fatal exactly when it is not
http.ErrServerClosed; on the normal-closure path no fatal log is emitted and
the process does not exit with the failure code, while an abnormal serve
error produces the fatal log and exit code 1. -/
theorem C3_fatal_classification (env : Env) (e : GoError) (msg : String)
    (signals : List Sig) (serr : Option GoError) :
    (serveErrFatal (some e) = true ↔ e ≠ GoError.errServerClosed)
    ∧ serveErrFatal none = false
    ∧ (runMain { env := env, behavior := ServeBehavior.serveThenClosed,
                 signals := signals, shutdownErr := serr }).exit ≠ some 1
    ∧ LogEvent.mk LogLevel.fatal "Failed to start server" ∉
        (runMain { env := env, behavior := ServeBehavior.serveThenClosed,
                   signals := signals, shutdownErr := serr }).logs
    ∧ (runMain { env := env, behavior := ServeBehavior.serveThenFail (GoError.other msg),
                 signals := signals, shutdownErr := serr }).exit = some 1
    ∧ LogEvent.mk LogLevel.fatal "Failed to start server" ∈
        (runMain { env := env, behavior := ServeBehavior.serveThenFail (GoError.other msg),
                   signals := signals, shutdownErr := serr }).logs := by
  refine ⟨by simp [serveErrFatal], rfl, ?_, ?_, ?_, ?_⟩
  · cases signals <;> cases serr <;> simp [runMain, gracefulShutdown, serveErrFatal, serveReturn]
  · cases signals <;> cases serr <;> simp [runMain, gracefulShutdown, serveErrFatal, serveReturn]
  · simp [runMain, serveErrFatal, serveReturn]
  · simp [runMain, serveErrFatal, serveReturn]

/-- Claim C4: when at least one termination signal is delivered while the
server is running, server.Shutdown is invoked exactly once, however many
further signals arrive afterwards; with no signal it is never invoked. -/
theorem C4_shutdown_called_exactly_once (env : Env) (s0 : Sig) (rest : List Sig)
    (serr : Option GoError) :
    (gracefulShutdown env (s0 :: rest) serr).shutdownCalls = 1
    ∧ (gracefulShutdown env [] serr).shutdownCalls = 0 := by
  cases serr <;> exact ⟨rfl, rfl⟩

/-- Claim C5: Server.Shutdown is idempotent — for every server state, a
second call returns the same error and leaves the same state as the first,
the modelled call is total (no panic), and the error surfaced is never a
close error, only nil or the context deadline error. -/
theorem C5_shutdown_idempotent (st : HttpServerState) :
    (srvShutdown (srvShutdown st).1).2.2 = (srvShutdown st).2.2
    ∧ (srvShutdown (srvShutdown st).1).1 = (srvShutdown st).1
    ∧ ((srvShutdown st).2.2 = none
        ∨ (srvShutdown st).2.2 = some GoError.deadlineExceeded) := by
  obtain ⟨i, d⟩ := st
  cases d <;> simp [srvShutdown, httpShutdown]

/-- Claim C6: when binding the listener fails with an error other than
http.ErrServerClosed, the run exits with code 1 after the startup log and the
fatal log, makes no Shutdown call, emits no shutdown log, and never enters
the Running state — for every environment, signal history, and Shutdown
outcome. -/
theorem C6_bind_failure_path (env : Env) (signals : List Sig)
    (serr : Option GoError) (e : GoError) (h : e ≠ GoError.errServerClosed) :
    runMain { env := env, behavior := ServeBehavior.bindFail e,
              signals := signals, shutdownErr := serr }
      = { exit := some 1,
          logs := [LogEvent.mk LogLevel.info "Starting HTTP server",
                   LogEvent.mk LogLevel.fatal "Failed to start server"],
          shutdownCalls := 0,
          enteredRunning := false } := by
  simp [runMain, serveErrFatal, serveReturn, enteredRunning, h]

/-- Witness for C6 at a concrete input: port already in use, no signal. -/
theorem C6_bind_failure_path_witness :
    runMain { env := fun _ => none,
              behavior := ServeBehavior.bindFail GoError.addrInUse,
              signals := [], shutdownErr := none }
      = { exit := some 1,
          logs := [LogEvent.mk LogLevel.info "Starting HTTP server",
                   LogEvent.mk LogLevel.fatal "Failed to start server"],
          shutdownCalls := 0,
          enteredRunning := false } :=
  C6_bind_failure_path (fun _ => none) [] none GoError.addrInUse (by decide)

/-- Claim C7: whenever Shutdown is called, the context passed to it carries
the fixed 30-second deadline, and the whole shutdown trace is independent of
the process environment. -/
theorem C7_deadline_constant (env env2 : Env) (s0 : Sig) (rest : List Sig)
    (serr : Option GoError) :
    (gracefulShutdown env (s0 :: rest) serr).deadlineSeconds = some 30
    ∧ gracefulShutdown env (s0 :: rest) serr
        = gracefulShutdown env2 (s0 :: rest) serr := by
  cases serr <;> exact ⟨rfl, rfl⟩

/-- Claim C8: every getter treats a variable set to the empty string exactly
like an unset variable and returns the default, IsSet still reports true for
the empty-set variable (and false for the unset one), and GetString returns
the empty string only when the variable is effectively empty and the default
itself is empty. -/
theorem C8_empty_env_like_unset (parseFloat : String → Option Float)
    (env : Env) (key dS : String) (dI dI64 : Int) (dF : Float) :
    GetString (setEnv env key "") key dS = dS
    ∧ GetString (unsetEnv env key) key dS = dS
    ∧ GetInt (setEnv env key "") key dI = dI
    ∧ GetInt (unsetEnv env key) key dI = dI
    ∧ GetInt64 (setEnv env key "") key dI64 = dI64
    ∧ GetInt64 (unsetEnv env key) key dI64 = dI64
    ∧ GetFloat64 parseFloat (setEnv env key "") key dF = dF
    ∧ GetFloat64 parseFloat (unsetEnv env key) key dF = dF
    ∧ IsSet (setEnv env key "") key = true
    ∧ IsSet (unsetEnv env key) key = false
    ∧ (GetString env key dS = "" ↔ getenv env key = "" ∧ dS = "") := by
  refine ⟨?_, ?_, ?_, ?_, ?_, ?_, ?_, ?_, ?_, ?_, ?_⟩ <;>
    try simp [GetString, GetInt, GetInt64, GetFloat64, IsSet, getenv, setEnv, unsetEnv]
  by_cases h : (env key).getD "" = "" <;> simp [h]

/-- Claim C9: GetBool maps the four case-sensitive true strings to true, the
four false strings to false, and every other value — including TRUE and True,
which the strconv.ParseBool-based loader variant getEnvBool accepts as true —
to the default. -/
theorem C9_getbool_case_sensitive (env : Env) (key : String) (d : Bool)
    (v : String) (hT : v ∉ boolTrueStrings) (hF : v ∉ boolFalseStrings) :
    (∀ t ∈ boolTrueStrings, GetBool (setEnv env key t) key d = true)
    ∧ (∀ f ∈ boolFalseStrings, GetBool (setEnv env key f) key d = false)
    ∧ GetBool (setEnv env key v) key d = d
    ∧ GetBool (setEnv env key "TRUE") key d = d
    ∧ GetBool (setEnv env key "True") key d = d
    ∧ getEnvBool (setEnv env key "TRUE") key d = true
    ∧ getEnvBool (setEnv env key "True") key d = true := by
  have hv : v ≠ "true" ∧ v ≠ "1" ∧ v ≠ "yes" ∧ v ≠ "on"
      ∧ v ≠ "false" ∧ v ≠ "0" ∧ v ≠ "no" ∧ v ≠ "off" := by
    simp [boolTrueStrings] at hT
    simp [boolFalseStrings] at hF
    exact ⟨hT.1, hT.2.1, hT.2.2.1, hT.2.2.2, hF.1, hF.2.1, hF.2.2.1, hF.2.2.2⟩
  refine ⟨?_, ?_, ?_, ?_, ?_, ?_, ?_⟩
  · intro t ht
    simp [boolTrueStrings] at ht
    rcases ht with h | h | h | h <;> subst h <;>
      simp [GetBool, getenv, setEnv]
  · intro f hf
    simp [boolFalseStrings] at hf
    rcases hf with h | h | h | h <;> subst h <;>
      simp [GetBool, getenv, setEnv]
  · by_cases hvv : v = ""
    · subst hvv; simp [GetBool, getenv, setEnv]
    · simp [GetBool, getenv, setEnv, hvv, hv.1, hv.2.1, hv.2.2.1, hv.2.2.2.1,
        hv.2.2.2.2.1, hv.2.2.2.2.2.1, hv.2.2.2.2.2.2.1, hv.2.2.2.2.2.2.2]
  · simp [GetBool, getenv, setEnv]
  · simp [GetBool, getenv, setEnv]
  · simp [getEnvBool, goParseBool, getenv, setEnv]
  · simp [getEnvBool, goParseBool, getenv, setEnv]

/-- Witness for C9 at a concrete input: the variable set to TRUE, default
false — GetBool falls back to the default while getEnvBool accepts it. -/
theorem C9_getbool_case_sensitive_witness :
    GetBool (setEnv (fun _ => none) "TRACING_ENABLED" "TRUE") "TRACING_ENABLED" false = false
    ∧ getEnvBool (setEnv (fun _ => none) "TRACING_ENABLED" "TRUE") "TRACING_ENABLED" false = true := by
  have h := C9_getbool_case_sensitive (fun _ => none) "TRACING_ENABLED" false "TRUE"
    (by decide) (by decide)
  exact ⟨h.2.2.2.1, h.2.2.2.2.2.1⟩

/-- Claim C10: the ping handler always answers 200 with Content-Type
application/json and exactly the pong body; the health handler always answers
200 with a JSON body whose status field is ok; both are total functions, and
the ping and health routes are registered for GET in both variants. -/
theorem C10_stub_handlers (r : HttpRequest) (now : String) :
    pingHandler r
      = { status := 200, contentType := some "application/json",
          body := "\x7b\"message\":\"pong\"\x7d" }
    ∧ (healthHandler r now).status = 200
    ∧ (healthHandler r now).contentType = some "application/json"
    ∧ (∃ rest, (healthHandler r now).body = "\x7b\"status\":\"ok\"" ++ rest)
    ∧ (⟨some "GET", "/api/v1/ping", RouteHandler.ping⟩ : Route) ∈ setupRoutes
    ∧ (⟨some "GET", "/health", RouteHandler.health⟩ : Route) ∈ setupRoutes
    ∧ (⟨some "GET", "/ping", RouteHandler.ping⟩ : Route)
        ∈ basicRoutesRegister defaultBasicRoutes
    ∧ (⟨some "GET", "/health", RouteHandler.health⟩ : Route)
        ∈ basicRoutesRegister defaultBasicRoutes := by
  refine ⟨rfl, rfl, rfl,
    ⟨",\"timestamp\":\"" ++ (now ++ "\"\x7d"), ?_⟩,
    by decide, by decide, by decide, by decide⟩
  show healthBody now = _
  unfold healthBody
  exact (stringAppendSplit "\x7b\"status\":\"ok\"" ",\"timestamp\":\"" _ _ (by decide)).symm

end SkeletonService
